import Mathlib

/-!
Verification of the input orchestration engine of the voicetype assistant
(`src/keyboard/listener.py`, `src/keyboard/inputState.py`,
`src/transcription/senseVoiceSmall.py`), as a shallow embedding.

Conventions of the embedding:
* time is modelled in milliseconds as `Nat` (the source uses seconds as float;
  0.3 s becomes 300 ms);
* the observable side effects of a method (key events typed, paste chords,
  clipboard writes, lifecycle callbacks, scheduled timers) are returned as a
  `List Effect` next to the updated manager record;
* Python string truthiness (`if not text`) is modelled by `length = 0`;
* `None` rendered through an f-string is modelled by `pyStr none = "None"`.
-/

/-- The seven-state enum of `inputState.py`. -/
inductive InputState where
  | IDLE
  | RECORDING
  | RECORDING_TRANSLATE
  | PROCESSING
  | TRANSLATING
  | ERROR
  | WARNING
deriving DecidableEq, Repr

/-- Source method `InputState.is_recording` from `inputState.py`. -/
def InputState.is_recording : InputState → Bool
  | .RECORDING => true
  | .RECORDING_TRANSLATE => true
  | _ => false

/-- Source method `InputState.can_start_recording` from `inputState.py`. -/
def InputState.can_start_recording (s : InputState) : Bool :=
  !s.is_recording

/-- Observable side effects of the keyboard manager methods. -/
inductive Effect where
  | backspace
  | typeChars (text : String)
  | pasteChord (text : String)
  | clipboardSet (text : String)
  | onRecordStart
  | onRecordStop
  | onTranslateStart
  | onTranslateStop
  | scheduleClear (seconds : Nat)
deriving DecidableEq, Repr

/-- The mutable fields of `KeyboardManager.__init__`, plus the two key
bindings (`none` models a constructor where the `Key[...]` lookup raised
`KeyError` and the attribute was left unset). -/
structure KeyboardManager where
  option_pressed : Bool
  shift_pressed : Bool
  temp_text_length : Nat
  processing_text : Option String
  error_message : Option String
  warning_message : Option String
  option_press_time : Option Nat
  is_checking_duration : Bool
  has_triggered : Bool
  original_clipboard : Option String
  state : InputState
  transcriptions_button : Option String
  translations_button : Option String
deriving DecidableEq, Repr

/-- Source constant `PRESS_DURATION_THRESHOLD = 0.3` seconds, here in milliseconds. -/
def PRESS_DURATION_THRESHOLD : Nat := 300

/-- The static entries of `_state_messages`. -/
def recordingMsg : String := "🎤 正在录音..."

def recordingTranslateMsg : String := "🎤 正在录音 (翻译模式)"

def processingMsg : String := "🔄 正在转录..."

def translatingMsg : String := "🔄 正在翻译..."

/-- How Python renders an optional string inside an f-string. -/
def pyStr : Option String → String
  | none => "None"
  | some s => s

/-- Python truthiness of an optional string. -/
def pyTruthy : Option String → Bool
  | none => false
  | some s => !(s.length == 0)

/-- Source `_delete_previous_text`: press backspace `temp_text_length` times, then
set the length to 0. -/
def delete_previous_text (km : KeyboardManager) : KeyboardManager × List Effect :=
  ({ km with temp_text_length := 0 },
   List.replicate km.temp_text_length Effect.backspace)

/-- Source `type_temp_text_clipboard`: copy to clipboard, simulate the paste chord,
record the new length.  It does not erase the previous span. -/
def type_temp_text_clipboard (km : KeyboardManager) (text : String) :
    KeyboardManager × List Effect :=
  if text.length = 0 then (km, [])
  else
    ({ km with temp_text_length := text.length },
     [Effect.clipboardSet text, Effect.pasteChord text])

/-- Source `type_text_character_by_character`: erase the previous span, type each
character, record the new length (success path of the source method). -/
def type_text_character_by_character (km : KeyboardManager) (text : String) :
    KeyboardManager × List Effect :=
  if text.length = 0 then (km, [])
  else
    let p := delete_previous_text km
    ({ p.1 with temp_text_length := text.length }, p.2 ++ [Effect.typeChars text])

/-- Source `type_temp_text`: strategy selection on `detect_terminal_environment()`,
passed in as `term`. -/
def type_temp_text (term : Bool) (km : KeyboardManager) (text : String) :
    KeyboardManager × List Effect :=
  if text.length = 0 then (km, [])
  else if term then type_text_character_by_character km text
  else type_temp_text_clipboard km text

/-- Source `type_text_character_by_character_final`: type the final text literally,
with no bookkeeping (success path). -/
def type_text_character_by_character_final (text : String) : List Effect :=
  [Effect.typeChars text]

/-- Source `_save_clipboard` (the same two lines are inlined in `on_press`):
save only when no snapshot is outstanding. -/
def save_clipboard (km : KeyboardManager) (clip : String) : KeyboardManager :=
  match km.original_clipboard with
  | none => { km with original_clipboard := some clip }
  | some _ => km

/-- Source `_restore_clipboard`: write the snapshot back and clear it. -/
def restore_clipboard (km : KeyboardManager) : KeyboardManager × List Effect :=
  match km.original_clipboard with
  | some s => ({ km with original_clipboard := none }, [Effect.clipboardSet s])
  | none => (km, [])

/-- The `state` property setter.  A transition to the same state is a no-op;
otherwise the branch for the entered state runs its side effects. -/
def setState (term : Bool) (km : KeyboardManager) (new : InputState) :
    KeyboardManager × List Effect :=
  if new = km.state then (km, [])
  else
    match new with
    | .RECORDING =>
        let km1 := { km with state := new, temp_text_length := 0 }
        let p := type_temp_text term km1 recordingMsg
        (p.1, p.2 ++ [Effect.onRecordStart])
    | .RECORDING_TRANSLATE =>
        let km1 := { km with state := new, temp_text_length := 0 }
        let p := type_temp_text term km1 recordingTranslateMsg
        (p.1, p.2 ++ [Effect.onTranslateStart])
    | .PROCESSING =>
        let km1 := { km with state := new }
        let p1 := delete_previous_text km1
        let p2 := type_temp_text term p1.1 processingMsg
        ({ p2.1 with processing_text := some processingMsg },
         p1.2 ++ p2.2 ++ [Effect.onRecordStop])
    | .TRANSLATING =>
        let km1 := { km with state := new }
        let p1 := delete_previous_text km1
        let p2 := type_temp_text term p1.1 translatingMsg
        ({ p2.1 with processing_text := some translatingMsg },
         p1.2 ++ p2.2 ++ [Effect.onTranslateStop])
    | .WARNING =>
        let km1 := { km with state := new }
        let msg := "⚠️ " ++ pyStr km1.warning_message
        let p1 := delete_previous_text km1
        let p2 := type_temp_text term p1.1 msg
        ({ p2.1 with warning_message := none },
         p1.2 ++ p2.2 ++ [Effect.scheduleClear 2])
    | .ERROR =>
        let km1 := { km with state := new }
        let msg := pyStr km1.error_message
        let p1 := delete_previous_text km1
        let p2 := type_temp_text term p1.1 msg
        ({ p2.1 with error_message := none },
         p1.2 ++ p2.2 ++ [Effect.scheduleClear 2])
    | .IDLE =>
        ({ km with state := new, processing_text := none }, [])

/-- The body of the timer thread started by `_schedule_message_clear`: after
sleeping 2 seconds it assigns `state = InputState.IDLE` through the setter. -/
def clear_message (term : Bool) (km : KeyboardManager) :
    KeyboardManager × List Effect :=
  setState term km .IDLE

/-- Source `show_warning`: store the message, then enter `WARNING`. -/
def show_warning (term : Bool) (km : KeyboardManager) (msg : String) :
    KeyboardManager × List Effect :=
  setState term { km with warning_message := some msg } .WARNING

/-- Source `show_error`: store the message, then enter `ERROR`. -/
def show_error (term : Bool) (km : KeyboardManager) (msg : String) :
    KeyboardManager × List Effect :=
  setState term { km with error_message := some msg } .ERROR

/-- The body of `start_duration_check`: return early when the checker flag is
already set, otherwise set it (the poll thread itself is modelled by
`check_duration_tick` / `runTicks`). -/
def start_duration_check (km : KeyboardManager) : KeyboardManager :=
  if km.is_checking_duration then km else { km with is_checking_duration := true }

/-- Source `on_press`: accessing an unset button attribute raises `AttributeError`,
which the handler swallows (modelled by the `none` branches). -/
def on_press (km : KeyboardManager) (key clip : String) (now : Nat) :
    KeyboardManager :=
  match km.transcriptions_button with
  | none => km
  | some tb =>
    if key = tb then
      let km1 := save_clipboard km clip
      let km2 := { km1 with option_pressed := true, option_press_time := some now }
      start_duration_check km2
    else
      match km.translations_button with
      | none => km
      | some trb =>
        if key = trb then { km with shift_pressed := true } else km

/-- Source `on_release`. -/
def on_release (term : Bool) (km : KeyboardManager) (key : String) :
    KeyboardManager × List Effect :=
  match km.transcriptions_button with
  | none => (km, [])
  | some tb =>
    if key = tb then
      let km1 := { km with
        shift_pressed := false, option_pressed := false,
        option_press_time := none, is_checking_duration := false }
      if km1.has_triggered = true then
        if km1.state = .RECORDING_TRANSLATE then
          let p := setState term km1 .TRANSLATING
          ({ p.1 with has_triggered := false }, p.2)
        else if km1.state = .RECORDING then
          let p := setState term km1 .PROCESSING
          ({ p.1 with has_triggered := false }, p.2)
        else ({ km1 with has_triggered := false }, [])
      else (km1, [])
    else
      match km.translations_button with
      | none => (km, [])
      | some trb =>
        if key = trb then
          let km1 := { km with shift_pressed := false }
          if km1.state = .RECORDING_TRANSLATE ∧ km1.option_pressed = false ∧
              km1.has_triggered = true then
            let p := setState term km1 .TRANSLATING
            ({ p.1 with has_triggered := false }, p.2)
          else (km1, [])
        else (km, [])

/-- One iteration of the poll loop inside `check_duration`: trigger exactly
when the latch is clear, the press timestamp is set, the elapsed time reached
the threshold, and recording is permitted. -/
def check_duration_tick (term : Bool) (km : KeyboardManager) (now : Nat) :
    KeyboardManager × List Effect :=
  if km.is_checking_duration = true ∧ km.option_pressed = true then
    match km.option_press_time with
    | none => (km, [])
    | some t0 =>
      if km.has_triggered = false ∧ PRESS_DURATION_THRESHOLD ≤ now - t0 then
        if km.option_pressed = true ∧ km.shift_pressed = true ∧
            km.state.can_start_recording = true then
          let p := setState term km .RECORDING_TRANSLATE
          ({ p.1 with has_triggered := true }, p.2)
        else if km.option_pressed = true ∧ km.shift_pressed = false ∧
            km.state.can_start_recording = true then
          let p := setState term km .RECORDING
          ({ p.1 with has_triggered := true }, p.2)
        else (km, [])
      else (km, [])
  else (km, [])

/-- A sequence of poll-loop iterations at the given instants. -/
def runTicks (term : Bool) (km : KeyboardManager) (ts : List Nat) :
    KeyboardManager × List Effect :=
  match ts with
  | [] => (km, [])
  | t :: rest =>
    let p := check_duration_tick term km t
    let q := runTicks term p.1 rest
    (q.1, p.2 ++ q.2)

/-- Source `reset_state`: erase transient text, restore the clipboard, clear every
session and trigger flag, force `IDLE` through the setter. -/
def reset_state (term : Bool) (km : KeyboardManager) :
    KeyboardManager × List Effect :=
  let p1 := delete_previous_text km
  let p2 := restore_clipboard p1.1
  let km2 := { p2.1 with
    option_pressed := false, shift_pressed := false,
    option_press_time := none, is_checking_duration := false,
    has_triggered := false, processing_text := none,
    error_message := none, warning_message := none }
  let p3 := setState term km2 .IDLE
  (p3.1, p1.2 ++ p2.2 ++ p3.2)

/-- The clipboard epilogue of `type_text`: either copy the final text
(`KEEP_ORIGINAL_CLIPBOARD` not true) or restore the snapshot. -/
def type_text_clipboard_epilogue (keep : Bool) (km : KeyboardManager)
    (text : String) : KeyboardManager × List Effect :=
  if keep then restore_clipboard km else (km, [Effect.clipboardSet text])

/-- The warning message used by `type_text` for empty results. -/
def tooShortMsg : String := "录音时长过短，请至少录制1秒"

/-- Source `type_text(text, error_message)`: route errors to `show_error`, empty
results while processing to `show_warning`, and otherwise erase the transient
span and inject the final text (success path of the `try` block). -/
def type_text (term keep : Bool) (km : KeyboardManager)
    (text errMsg : Option String) : KeyboardManager × List Effect :=
  if pyTruthy errMsg then show_error term km (pyStr errMsg)
  else if pyTruthy text = false then
    if km.state = .PROCESSING ∨ km.state = .TRANSLATING then
      show_warning term km tooShortMsg
    else (km, [])
  else
    let t := pyStr text
    let p1 := delete_previous_text km
    if term then
      let e2 := type_text_character_by_character_final t
      let p3 := type_text_clipboard_epilogue keep p1.1 t
      let p4 := setState term p3.1 .IDLE
      (p4.1, p1.2 ++ e2 ++ p3.2 ++ p4.2)
    else
      let p2 := type_temp_text_clipboard p1.1 (t ++ " ✅")
      let km2 := { p2.1 with temp_text_length := 2 }
      let p3 := delete_previous_text km2
      let p4 := type_text_clipboard_epilogue keep p3.1 t
      let p5 := setState term p4.1 .IDLE
      (p5.1, p1.2 ++ p2.2 ++ p3.2 ++ p4.2 ++ p5.2)

/-- Python exceptions relevant to `process_audio`: `TimeoutError` versus any
other exception. -/
inductive PyExc where
  | timeoutError (msg : String)
  | otherError (msg : String)
deriving DecidableEq, Repr

/-- The shape of a response seen by `LocalASRProcessor.process_audio`:
plain text, a dict with a `data` entry, a dict with a non-empty `result`
list, or anything else. -/
inductive AsrResponse where
  | text (s : String)
  | jsonData (d : String)
  | jsonResult (t raw clean : String)
  | jsonOther
deriving DecidableEq, Repr

/-- The wrapper produced by `timeout_decorator(seconds)`: `finishes` models
whether `completed.wait(seconds)` returned before the deadline; when it did,
the body result or exception is propagated, otherwise `TimeoutError` is
raised. -/
def timeout_decorator_run {α : Type} (seconds : Nat) (finishes : Bool)
    (body : Except PyExc α) : Except PyExc α :=
  if finishes then body
  else Except.error (PyExc.timeoutError ("操作超时 (" ++ toString seconds ++ "秒)"))

/-- The result-extraction cascade of `LocalASRProcessor.process_audio`. -/
def extract_transcription : AsrResponse → String
  | .text s => s
  | .jsonData d => d
  | .jsonResult t _ _ => t
  | .jsonOther => "获取失败"

/-- Source `LocalASRProcessor.DEFAULT_TIMEOUT` (seconds), used in the user-visible
timeout message; the decorator on `_call_api` uses 10 seconds. -/
def ASR_DEFAULT_TIMEOUT : Nat := 20

/-- Source `LocalASRProcessor.process_audio`: run `_call_api` under the 10-second
decorator, extract and optionally translate the transcription, and convert
every raised failure into a `(None, error)` pair. -/
def process_audio (finishes : Bool) (body : Except PyExc AsrResponse)
    (mode : String) (translate : String → String) :
    Option String × Option String :=
  match timeout_decorator_run 10 finishes body with
  | .error (.timeoutError _) =>
      (none, some ("❌ API 请求超时 (" ++ toString ASR_DEFAULT_TIMEOUT ++ "秒)"))
  | .error (.otherError m) => (none, some ("❌ " ++ m))
  | .ok resp =>
      let transcription := extract_transcription resp
      if mode = "translations" then (some (translate transcription), none)
      else (some transcription, none)

/-- The names of the `pynput` `Key` enum members, against which the
configured binding names are looked up (external collaborator). -/
def pynputKeyNames : List String :=
  ["alt", "alt_l", "alt_r", "alt_gr", "backspace", "caps_lock", "cmd",
   "cmd_l", "cmd_r", "ctrl", "ctrl_l", "ctrl_r", "delete", "down", "end",
   "enter", "esc", "f1", "f2", "f3", "f4", "f5", "f6", "f7", "f8", "f9",
   "f10", "f11", "f12", "home", "left", "page_down", "page_up", "right",
   "shift", "shift_l", "shift_r", "space", "tab", "up", "insert", "menu",
   "num_lock", "pause", "print_screen", "scroll_lock"]

/-- Source `Key[name]`: raises `KeyError` when the name is not an enum member
(or when the environment variable was unset). -/
def lookupKey (name : Option String) : Except String String :=
  match name with
  | none => Except.error "None"
  | some n => if pynputKeyNames.contains n then Except.ok n else Except.error n

/-- The key-binding phase of `KeyboardManager.__init__` (lines 55-68): each
lookup is wrapped in `try ... except KeyError` that only logs, so the
constructor always completes and a failed lookup leaves the attribute unset. -/
def init_key_bindings (a b : Option String) : Option String × Option String :=
  (match lookupKey a with | .ok k => some k | .error _ => none,
   match lookupKey b with | .ok k => some k | .error _ => none)

/-- Follows the words of the spec, for comparison with `init_key_bindings`:
an invalid binding name is a fatal configuration error, so startup fails
instead of completing. -/
def init_key_bindings_claimed (a b : Option String) :
    Except String (String × String) :=
  match lookupKey a with
  | .error e => Except.error ("无效的转录按钮配置：" ++ e)
  | .ok ka =>
    match lookupKey b with
    | .error e => Except.error ("无效的翻译按钮配置：" ++ e)
    | .ok kb => Except.ok (ka, kb)

/-- Is an effect a backspace key event? -/
def isBackspace : Effect → Bool
  | .backspace => true
  | _ => false

/-- Is an effect the `on_record_start` callback? -/
def isRecordStart : Effect → Bool
  | .onRecordStart => true
  | _ => false

/-- Is an effect the `on_translate_start` callback? -/
def isTranslateStart : Effect → Bool
  | .onTranslateStart => true
  | _ => false

/-- Number of backspace key events in an effect trace. -/
def countBackspaces (effs : List Effect) : Nat :=
  effs.countP isBackspace

/-- Number of `on_record_start` callbacks in an effect trace. -/
def countRecordStarts (effs : List Effect) : Nat :=
  effs.countP isRecordStart

/-- Number of `on_translate_start` callbacks in an effect trace. -/
def countTranslateStarts (effs : List Effect) : Nat :=
  effs.countP isTranslateStart

/-- How one effect changes the number of visible characters at the focus
point: backspace removes one, typed characters and a paste insert the text,
clipboard writes and callbacks are invisible. -/
def applyEffect (n : Nat) : Effect → Nat
  | .backspace => n - 1
  | .typeChars t => n + t.length
  | .pasteChord t => n + t.length
  | _ => n

/-- The visible character count after an effect trace, starting from `n`
visible transient characters. -/
def visibleAfter (n : Nat) (effs : List Effect) : Nat :=
  effs.foldl applyEffect n

/-- A freshly constructed manager (the field values assigned by
`__init__` with valid `f8` / `f7` bindings). -/
def kmInit : KeyboardManager :=
  { option_pressed := false, shift_pressed := false, temp_text_length := 0,
    processing_text := none, error_message := none, warning_message := none,
    option_press_time := none, is_checking_duration := false,
    has_triggered := false, original_clipboard := none,
    state := .IDLE, transcriptions_button := some "f8",
    translations_button := some "f7" }

theorem countBackspaces_replicate (n : Nat) :
    countBackspaces (List.replicate n Effect.backspace) = n := by
  simp [countBackspaces, List.countP_replicate, isBackspace]

theorem countRecordStarts_replicate_backspace (n : Nat) :
    countRecordStarts (List.replicate n Effect.backspace) = 0 := by
  simp [countRecordStarts, List.countP_replicate, isRecordStart]

theorem countTranslateStarts_replicate_backspace (n : Nat) :
    countTranslateStarts (List.replicate n Effect.backspace) = 0 := by
  simp [countTranslateStarts, List.countP_replicate, isTranslateStart]

theorem visibleAfter_append (n : Nat) (l1 l2 : List Effect) :
    visibleAfter n (l1 ++ l2) = visibleAfter (visibleAfter n l1) l2 :=
  List.foldl_append _ _ _ _

theorem visibleAfter_replicate_backspace (n k : Nat) :
    visibleAfter n (List.replicate k Effect.backspace) = n - k := by
  induction k generalizing n with
  | zero => simp [visibleAfter]
  | succ k ih =>
    rw [List.replicate_succ]
    have : visibleAfter n (Effect.backspace :: List.replicate k Effect.backspace)
        = visibleAfter (n - 1) (List.replicate k Effect.backspace) := rfl
    rw [this, ih]
    omega

theorem setState_IDLE (term : Bool) (km : KeyboardManager) :
    setState term km .IDLE =
      if InputState.IDLE = km.state then (km, [])
      else ({ km with state := .IDLE, processing_text := none }, []) := by
  by_cases h : InputState.IDLE = km.state <;> simp [setState, h]

theorem setState_IDLE_state (term : Bool) (km : KeyboardManager) :
    (setState term km .IDLE).1.state = InputState.IDLE := by
  rw [setState_IDLE]
  by_cases h : InputState.IDLE = km.state
  · rw [if_pos h]
    exact h.symm
  · rw [if_neg h]

theorem setState_IDLE_effects (term : Bool) (km : KeyboardManager) :
    (setState term km .IDLE).2 = [] := by
  rw [setState_IDLE]
  by_cases h : InputState.IDLE = km.state <;> simp [h]

theorem setState_RECORDING (term : Bool) (km : KeyboardManager)
    (h : km.state ≠ InputState.RECORDING) :
    setState term km .RECORDING =
      ({ km with state := .RECORDING, temp_text_length := recordingMsg.length },
       (if term then [Effect.typeChars recordingMsg]
        else [Effect.clipboardSet recordingMsg, Effect.pasteChord recordingMsg])
       ++ [Effect.onRecordStart]) := by
  have hne : ¬ (InputState.RECORDING = km.state) := fun e => h e.symm
  cases term <;>
    simp [setState, hne, type_temp_text, type_text_character_by_character,
      type_temp_text_clipboard, delete_previous_text,
      (by decide : ¬ (recordingMsg.length = 0))]

theorem setState_RECORDING_TRANSLATE (term : Bool) (km : KeyboardManager)
    (h : km.state ≠ InputState.RECORDING_TRANSLATE) :
    setState term km .RECORDING_TRANSLATE =
      ({ km with
          state := .RECORDING_TRANSLATE,
          temp_text_length := recordingTranslateMsg.length },
       (if term then [Effect.typeChars recordingTranslateMsg]
        else [Effect.clipboardSet recordingTranslateMsg,
              Effect.pasteChord recordingTranslateMsg])
       ++ [Effect.onTranslateStart]) := by
  have hne : ¬ (InputState.RECORDING_TRANSLATE = km.state) := fun e => h e.symm
  cases term <;>
    simp [setState, hne, type_temp_text, type_text_character_by_character,
      type_temp_text_clipboard, delete_previous_text,
      (by decide : ¬ (recordingTranslateMsg.length = 0))]

theorem setState_WARNING (term : Bool) (km : KeyboardManager)
    (h : km.state ≠ InputState.WARNING) :
    setState term km .WARNING =
      ({ km with
          state := .WARNING, warning_message := none,
          temp_text_length := ("⚠️ " ++ pyStr km.warning_message).length },
       List.replicate km.temp_text_length Effect.backspace ++
       (if term then [Effect.typeChars ("⚠️ " ++ pyStr km.warning_message)]
        else [Effect.clipboardSet ("⚠️ " ++ pyStr km.warning_message),
              Effect.pasteChord ("⚠️ " ++ pyStr km.warning_message)])
       ++ [Effect.scheduleClear 2]) := by
  have hne : ¬ (InputState.WARNING = km.state) := fun e => h e.symm
  have h3 : ("⚠️ " : String).length = 3 := by decide
  cases term <;>
    simp [setState, hne, type_temp_text, type_text_character_by_character,
      type_temp_text_clipboard, delete_previous_text, h3]

theorem setState_ERROR (term : Bool) (km : KeyboardManager)
    (h : km.state ≠ InputState.ERROR)
    (hm : (pyStr km.error_message).length ≠ 0) :
    setState term km .ERROR =
      ({ km with
          state := .ERROR, error_message := none,
          temp_text_length := (pyStr km.error_message).length },
       List.replicate km.temp_text_length Effect.backspace ++
       (if term then [Effect.typeChars (pyStr km.error_message)]
        else [Effect.clipboardSet (pyStr km.error_message),
              Effect.pasteChord (pyStr km.error_message)])
       ++ [Effect.scheduleClear 2]) := by
  have hne : ¬ (InputState.ERROR = km.state) := fun e => h e.symm
  cases term <;>
    simp [setState, hne, type_temp_text, type_text_character_by_character,
      type_temp_text_clipboard, delete_previous_text, hm]

theorem check_duration_tick_triggered (term : Bool) (km : KeyboardManager)
    (now : Nat) (h : km.has_triggered = true) :
    check_duration_tick term km now = (km, []) := by
  cases hopt : km.option_press_time <;>
    simp [check_duration_tick, hopt, h]

theorem check_duration_tick_below (term : Bool) (km : KeyboardManager)
    (now t0 : Nat) (hpt : km.option_press_time = some t0)
    (hlt : now - t0 < PRESS_DURATION_THRESHOLD) :
    check_duration_tick term km now = (km, []) := by
  have hn : ¬ (PRESS_DURATION_THRESHOLD ≤ now - t0) := Nat.not_le.mpr hlt
  simp [check_duration_tick, hpt, hn]

theorem runTicks_triggered (term : Bool) (km : KeyboardManager) (ts : List Nat)
    (h : km.has_triggered = true) :
    runTicks term km ts = (km, []) := by
  induction ts with
  | nil => rfl
  | cons t rest ih =>
    simp [runTicks, check_duration_tick_triggered term km t h, ih]

theorem runTicks_below (term : Bool) (km : KeyboardManager) (t0 : Nat)
    (ts : List Nat) (hpt : km.option_press_time = some t0)
    (hshort : ∀ t ∈ ts, t - t0 < PRESS_DURATION_THRESHOLD) :
    runTicks term km ts = (km, []) := by
  induction ts with
  | nil => rfl
  | cons t rest ih =>
    have h1 := check_duration_tick_below term km t t0 hpt (hshort t (by simp))
    have h2 := ih (fun u hu => hshort u (by simp [hu]))
    simp [runTicks, h1, h2]

theorem countStarts_record_entry (term : Bool) (m : String) :
    countRecordStarts ((if term then [Effect.typeChars m]
      else [Effect.clipboardSet m, Effect.pasteChord m])
      ++ [Effect.onRecordStart]) = 1 ∧
    countTranslateStarts ((if term then [Effect.typeChars m]
      else [Effect.clipboardSet m, Effect.pasteChord m])
      ++ [Effect.onRecordStart]) = 0 := by
  cases term <;>
    simp [countRecordStarts, countTranslateStarts, List.countP_cons,
      isRecordStart, isTranslateStart]

theorem countStarts_translate_entry (term : Bool) (m : String) :
    countRecordStarts ((if term then [Effect.typeChars m]
      else [Effect.clipboardSet m, Effect.pasteChord m])
      ++ [Effect.onTranslateStart]) = 0 ∧
    countTranslateStarts ((if term then [Effect.typeChars m]
      else [Effect.clipboardSet m, Effect.pasteChord m])
      ++ [Effect.onTranslateStart]) = 1 := by
  cases term <;>
    simp [countRecordStarts, countTranslateStarts, List.countP_cons,
      isRecordStart, isTranslateStart]

theorem runTicks_triggers_once (term : Bool) (t0 : Nat) (ts : List Nat)
    (km : KeyboardManager)
    (hop : km.option_pressed = true)
    (hck : km.is_checking_duration = true)
    (hpt : km.option_press_time = some t0)
    (htr : km.has_triggered = false)
    (hcan : km.state.can_start_recording = true)
    (hwit : ∃ t ∈ ts, PRESS_DURATION_THRESHOLD ≤ t - t0) :
    (runTicks term km ts).1.has_triggered = true ∧
    (runTicks term km ts).1.state =
      (if km.shift_pressed then InputState.RECORDING_TRANSLATE
       else InputState.RECORDING) ∧
    countRecordStarts (runTicks term km ts).2 =
      (if km.shift_pressed then 0 else 1) ∧
    countTranslateStarts (runTicks term km ts).2 =
      (if km.shift_pressed then 1 else 0) := by
  revert hwit
  induction ts with
  | nil =>
    intro hwit
    simp at hwit
  | cons t rest ih =>
    intro hwit
    by_cases hth : PRESS_DURATION_THRESHOLD ≤ t - t0
    · cases hs : km.shift_pressed
      · have hne : km.state ≠ InputState.RECORDING := by
          intro e
          rw [e] at hcan
          simp [InputState.can_start_recording, InputState.is_recording] at hcan
        have hset := setState_RECORDING term km hne
        have htick : check_duration_tick term km t =
            ({ km with
                state := .RECORDING, temp_text_length := recordingMsg.length,
                has_triggered := true },
             (if term then [Effect.typeChars recordingMsg]
              else [Effect.clipboardSet recordingMsg,
                    Effect.pasteChord recordingMsg])
             ++ [Effect.onRecordStart]) := by
          simp only [check_duration_tick, hpt, hck, hop, htr, hs, hcan, hth]
          rw [hset]
          simp
          exact ⟨hop, hs, hpt, hck⟩
        have hcnt := countStarts_record_entry term recordingMsg
        have hrest := runTicks_triggered term
          ({ km with
              state := .RECORDING, temp_text_length := recordingMsg.length,
              has_triggered := true }) rest rfl
        rw [hs] at hrest
        simp [runTicks, htick, hrest, hs, hcnt.1, hcnt.2]
      · have hne : km.state ≠ InputState.RECORDING_TRANSLATE := by
          intro e
          rw [e] at hcan
          simp [InputState.can_start_recording, InputState.is_recording] at hcan
        have hset := setState_RECORDING_TRANSLATE term km hne
        have htick : check_duration_tick term km t =
            ({ km with
                state := .RECORDING_TRANSLATE,
                temp_text_length := recordingTranslateMsg.length,
                has_triggered := true },
             (if term then [Effect.typeChars recordingTranslateMsg]
              else [Effect.clipboardSet recordingTranslateMsg,
                    Effect.pasteChord recordingTranslateMsg])
             ++ [Effect.onTranslateStart]) := by
          simp only [check_duration_tick, hpt, hck, hop, htr, hs, hcan, hth]
          rw [hset]
          simp
          exact ⟨hop, hs, hpt, hck⟩
        have hcnt := countStarts_translate_entry term recordingTranslateMsg
        have hrest := runTicks_triggered term
          ({ km with
              state := .RECORDING_TRANSLATE,
              temp_text_length := recordingTranslateMsg.length,
              has_triggered := true }) rest rfl
        rw [hs] at hrest
        simp [runTicks, htick, hrest, hs, hcnt.1, hcnt.2]
    · have h1 := check_duration_tick_below term km t t0 hpt (Nat.not_le.mp hth)
      rcases hwit with ⟨u, hu, hut⟩
      rcases List.mem_cons.mp hu with rfl | hmem
      · exact absurd hut hth
      · have h := ih ⟨u, hmem, hut⟩
        simpa [runTicks, h1] using h

theorem on_press_transcribe (km : KeyboardManager) (tk clip : String)
    (t0 : Nat) (hb : km.transcriptions_button = some tk) :
    on_press km tk clip t0 =
      { km with
        original_clipboard :=
          (match km.original_clipboard with
           | none => some clip
           | some s => some s),
        option_pressed := true, option_press_time := some t0,
        is_checking_duration := true } := by
  cases hoc : km.original_clipboard <;>
    cases hck : km.is_checking_duration <;>
      simp [on_press, hb, save_clipboard, start_duration_check, hoc, hck]

/-- C1: a press of the transcribe key held past the threshold, while
recording is permitted, produces exactly one start trigger: the latch is
set, the state moves to RECORDING (modifier up) or RECORDING_TRANSLATE
(modifier down), and exactly one of the on_record_start /
on_translate_start callbacks fires, however many further poll ticks occur
before release. -/
theorem hold_press_triggers_exactly_once
    (term : Bool) (km0 : KeyboardManager) (tk clip : String) (t0 : Nat)
    (ts : List Nat)
    (hb : km0.transcriptions_button = some tk)
    (hcan : km0.state.can_start_recording = true)
    (htr : km0.has_triggered = false)
    (hwit : ∃ t ∈ ts, PRESS_DURATION_THRESHOLD ≤ t - t0) :
    (runTicks term (on_press km0 tk clip t0) ts).1.has_triggered = true ∧
    (runTicks term (on_press km0 tk clip t0) ts).1.state =
      (if km0.shift_pressed then InputState.RECORDING_TRANSLATE
       else InputState.RECORDING) ∧
    countRecordStarts (runTicks term (on_press km0 tk clip t0) ts).2 +
      countTranslateStarts (runTicks term (on_press km0 tk clip t0) ts).2
      = 1 ∧
    countRecordStarts (runTicks term (on_press km0 tk clip t0) ts).2 =
      (if km0.shift_pressed then 0 else 1) ∧
    countTranslateStarts (runTicks term (on_press km0 tk clip t0) ts).2 =
      (if km0.shift_pressed then 1 else 0) := by
  rw [on_press_transcribe km0 tk clip t0 hb]
  have h := runTicks_triggers_once term t0 ts
    ({ km0 with
       original_clipboard :=
         (match km0.original_clipboard with
          | none => some clip
          | some s => some s),
       option_pressed := true, option_press_time := some t0,
       is_checking_duration := true })
    rfl rfl rfl htr hcan hwit
  refine ⟨h.1, h.2.1, ?_, h.2.2.1, h.2.2.2⟩
  rw [h.2.2.1, h.2.2.2]
  cases km0.shift_pressed <;> simp

/-- Witness for C1 at a concrete freshly constructed manager and a single
tick exactly at the threshold. -/
theorem hold_press_triggers_exactly_once_witness :
    (runTicks false (on_press kmInit "f8" "clip" 0) [300]).1.has_triggered
      = true ∧
    (runTicks false (on_press kmInit "f8" "clip" 0) [300]).1.state =
      (if kmInit.shift_pressed then InputState.RECORDING_TRANSLATE
       else InputState.RECORDING) ∧
    countRecordStarts (runTicks false (on_press kmInit "f8" "clip" 0) [300]).2
      + countTranslateStarts
          (runTicks false (on_press kmInit "f8" "clip" 0) [300]).2 = 1 ∧
    countRecordStarts (runTicks false (on_press kmInit "f8" "clip" 0) [300]).2
      = (if kmInit.shift_pressed then 0 else 1) ∧
    countTranslateStarts
        (runTicks false (on_press kmInit "f8" "clip" 0) [300]).2
      = (if kmInit.shift_pressed then 1 else 0) :=
  hold_press_triggers_exactly_once false kmInit "f8" "clip" 0 [300]
    rfl rfl rfl ⟨300, by simp, by decide⟩

/-- C2: a press of the transcribe key released before the threshold never
triggers: the poll ticks are all no-ops, the release produces no effects,
the state is IDLE before the press and after the release, and the latch is
never set. -/
theorem tap_short_press_no_trigger
    (term : Bool) (km0 : KeyboardManager) (tk clip : String) (t0 : Nat)
    (ts : List Nat)
    (hb : km0.transcriptions_button = some tk)
    (hidle : km0.state = InputState.IDLE)
    (htr : km0.has_triggered = false)
    (hshort : ∀ t ∈ ts, t - t0 < PRESS_DURATION_THRESHOLD) :
    (on_press km0 tk clip t0).has_triggered = false ∧
    runTicks term (on_press km0 tk clip t0) ts =
      (on_press km0 tk clip t0, []) ∧
    (on_release term (runTicks term (on_press km0 tk clip t0) ts).1 tk).2
      = [] ∧
    (on_release term (runTicks term (on_press km0 tk clip t0) ts).1 tk).1.state
      = InputState.IDLE ∧
    (on_release term
        (runTicks term (on_press km0 tk clip t0) ts).1 tk).1.has_triggered
      = false := by
  rw [on_press_transcribe km0 tk clip t0 hb]
  have hrun := runTicks_below term
    ({ km0 with
       original_clipboard :=
         (match km0.original_clipboard with
          | none => some clip
          | some s => some s),
       option_pressed := true, option_press_time := some t0,
       is_checking_duration := true })
    t0 ts rfl hshort
  rw [hrun]
  refine ⟨htr, rfl, ?_, ?_, ?_⟩ <;>
    simp [on_release, hb, htr, hidle]

/-- Witness for C2: two sub-threshold ticks, then release. -/
theorem tap_short_press_no_trigger_witness :
    (on_press kmInit "f8" "clip" 0).has_triggered = false ∧
    runTicks false (on_press kmInit "f8" "clip" 0) [100, 290] =
      (on_press kmInit "f8" "clip" 0, []) ∧
    (on_release false
        (runTicks false (on_press kmInit "f8" "clip" 0) [100, 290]).1 "f8").2
      = [] ∧
    (on_release false
        (runTicks false (on_press kmInit "f8" "clip" 0) [100, 290]).1
        "f8").1.state = InputState.IDLE ∧
    (on_release false
        (runTicks false (on_press kmInit "f8" "clip" 0) [100, 290]).1
        "f8").1.has_triggered = false :=
  tap_short_press_no_trigger false kmInit "f8" "clip" 0 [100, 290]
    rfl rfl rfl (by decide)

/-- C3 counterexample: under the clipboard-paste strategy two consecutive
transient injections of "a" then "b" emit zero backspaces (the claim
demands one, the recorded length of "a") and leave two visible characters
(the claim demands one). -/
theorem inject_transient_clipboard_counterexample :
    countBackspaces
      (type_temp_text false (type_temp_text false kmInit "a").1 "b").2 = 0 ∧
    visibleAfter 0
      ((type_temp_text false kmInit "a").2 ++
       (type_temp_text false (type_temp_text false kmInit "a").1 "b").2)
      = 2 ∧
    String.length "a" = 1 ∧ String.length "b" = 1 := by
  refine ⟨?_, ?_, ?_, ?_⟩ <;> decide

theorem visibleAfter_block (n k : Nat) (s : String) :
    visibleAfter n (List.replicate k Effect.backspace ++ [Effect.typeChars s])
      = n - k + s.length := by
  rw [visibleAfter_append, visibleAfter_replicate_backspace]
  simp [visibleAfter, applyEffect]

/-- C3 amended: the direct-character strategy erases exactly the previously
recorded length before injecting (a.length backspaces on the second call)
and leaves exactly b.length visible characters; the clipboard-paste
strategy records the new length but emits no backspaces itself (its erase
is performed by the callers through delete_previous_text). -/
theorem inject_transient_char_strategy (km : KeyboardManager) (a b : String)
    (ha : a.length ≠ 0) (hb : b.length ≠ 0) :
    countBackspaces (type_temp_text true (type_temp_text true km a).1 b).2
      = a.length ∧
    (type_temp_text true (type_temp_text true km a).1 b).1.temp_text_length
      = b.length ∧
    visibleAfter km.temp_text_length
      ((type_temp_text true km a).2 ++
       (type_temp_text true (type_temp_text true km a).1 b).2) = b.length ∧
    countBackspaces (type_temp_text false (type_temp_text true km a).1 b).2
      = 0 ∧
    (type_temp_text false (type_temp_text true km a).1 b).1.temp_text_length
      = b.length := by
  have h1 : type_temp_text true km a =
      ({ km with temp_text_length := a.length },
       List.replicate km.temp_text_length Effect.backspace ++
         [Effect.typeChars a]) := by
    simp [type_temp_text, type_text_character_by_character,
      delete_previous_text, ha]
  have h2 : type_temp_text true
        ({ km with temp_text_length := a.length } : KeyboardManager) b =
      ({ km with temp_text_length := b.length },
       List.replicate a.length Effect.backspace ++ [Effect.typeChars b]) := by
    simp [type_temp_text, type_text_character_by_character,
      delete_previous_text, hb]
  have h3 : type_temp_text false
        ({ km with temp_text_length := a.length } : KeyboardManager) b =
      ({ km with temp_text_length := b.length },
       [Effect.clipboardSet b, Effect.pasteChord b]) := by
    simp [type_temp_text, type_temp_text_clipboard, hb]
  rw [h1]
  simp only [h2, h3]
  refine ⟨?_, by trivial, ?_, ?_, by trivial⟩
  · simp [countBackspaces, List.countP_append, List.countP_replicate,
      List.countP_cons, isBackspace]
  · rw [visibleAfter_append, visibleAfter_block, visibleAfter_block]
    omega
  · simp [countBackspaces, List.countP_cons, isBackspace]

/-- Witness for C3 amended at a concrete manager with three stale transient
characters. -/
theorem inject_transient_char_strategy_witness :
    countBackspaces
      (type_temp_text true
        (type_temp_text true
          ({ kmInit with temp_text_length := 3 } : KeyboardManager) "ab").1
        "xyz").2 = String.length "ab" ∧
    (type_temp_text true
        (type_temp_text true
          ({ kmInit with temp_text_length := 3 } : KeyboardManager) "ab").1
        "xyz").1.temp_text_length = String.length "xyz" ∧
    visibleAfter
      ({ kmInit with temp_text_length := 3 } : KeyboardManager).temp_text_length
      ((type_temp_text true
          ({ kmInit with temp_text_length := 3 } : KeyboardManager) "ab").2 ++
       (type_temp_text true
          (type_temp_text true
            ({ kmInit with temp_text_length := 3 } : KeyboardManager) "ab").1
          "xyz").2) = String.length "xyz" ∧
    countBackspaces
      (type_temp_text false
        (type_temp_text true
          ({ kmInit with temp_text_length := 3 } : KeyboardManager) "ab").1
        "xyz").2 = 0 ∧
    (type_temp_text false
        (type_temp_text true
          ({ kmInit with temp_text_length := 3 } : KeyboardManager) "ab").1
        "xyz").1.temp_text_length = String.length "xyz" :=
  inject_transient_char_strategy
    ({ kmInit with temp_text_length := 3 }) "ab" "xyz"
    (by decide) (by decide)

/-- C4: reset_state, called from any state (all fields universally
quantified, so in particular mid-hold), yields IDLE with zero transient
length, no outstanding snapshot (a pending snapshot is written back to the
clipboard and cleared), and every session, trigger and message flag
cleared. -/
theorem reset_state_forces_idle (term : Bool) (km : KeyboardManager) :
    (reset_state term km).1.state = InputState.IDLE ∧
    (reset_state term km).1.temp_text_length = 0 ∧
    (reset_state term km).1.original_clipboard = none ∧
    (reset_state term km).1.option_pressed = false ∧
    (reset_state term km).1.shift_pressed = false ∧
    (reset_state term km).1.option_press_time = none ∧
    (reset_state term km).1.is_checking_duration = false ∧
    (reset_state term km).1.has_triggered = false ∧
    (reset_state term km).1.processing_text = none ∧
    (reset_state term km).1.error_message = none ∧
    (reset_state term km).1.warning_message = none ∧
    (∀ s, km.original_clipboard = some s →
       Effect.clipboardSet s ∈ (reset_state term km).2) := by
  cases hoc : km.original_clipboard
  · by_cases hst : km.state = InputState.IDLE
    · simp [reset_state, delete_previous_text, restore_clipboard, hoc,
        setState_IDLE, hst]
    · have hst2 : ¬ (InputState.IDLE = km.state) := fun e => hst e.symm
      simp [reset_state, delete_previous_text, restore_clipboard, hoc,
        setState_IDLE, hst2]
  · by_cases hst : km.state = InputState.IDLE
    · simp [reset_state, delete_previous_text, restore_clipboard, hoc,
        setState_IDLE, hst]
    · have hst2 : ¬ (InputState.IDLE = km.state) := fun e => hst e.symm
      simp [reset_state, delete_previous_text, restore_clipboard, hoc,
        setState_IDLE, hst2]

/-- Witness for C4 from a mid-hold recording state with stale transient
text and a pending snapshot. -/
theorem reset_state_forces_idle_witness :
    (reset_state false
      ({ kmInit with
          state := .RECORDING, temp_text_length := 4, option_pressed := true,
          has_triggered := true, original_clipboard := some "orig" }
        : KeyboardManager)).1.state = InputState.IDLE ∧
    Effect.clipboardSet "orig" ∈
      (reset_state false
        ({ kmInit with
            state := .RECORDING, temp_text_length := 4,
            option_pressed := true, has_triggered := true,
            original_clipboard := some "orig" } : KeyboardManager)).2 := by
  obtain ⟨h1, _, _, _, _, _, _, _, _, _, _, h12⟩ :=
    reset_state_forces_idle false
      ({ kmInit with
          state := .RECORDING, temp_text_length := 4, option_pressed := true,
          has_triggered := true, original_clipboard := some "orig" })
  exact ⟨h1, h12 "orig" rfl⟩

/-- C5: at most one snapshot is ever outstanding and first-save-wins: a
save with no pending snapshot stores the clipboard, a save while one is
pending is a complete no-op (so two consecutive saves keep the first), and
a restore writes the saved content back and clears the snapshot to none. -/
theorem clipboard_snapshot_invariant (km : KeyboardManager) (c1 c2 : String) :
    (km.original_clipboard = none →
       (save_clipboard km c1).original_clipboard = some c1) ∧
    (∀ s, km.original_clipboard = some s → save_clipboard km c2 = km) ∧
    ((restore_clipboard km).1.original_clipboard = none) ∧
    (∀ s, km.original_clipboard = some s →
       restore_clipboard km =
         ({ km with original_clipboard := none }, [Effect.clipboardSet s])) ∧
    (save_clipboard (save_clipboard km c1) c2 = save_clipboard km c1) := by
  cases hoc : km.original_clipboard <;>
    simp [save_clipboard, restore_clipboard, hoc]

/-- Witness for C5: a fresh save stores the current clipboard, and a
restore on a pending snapshot writes it back and clears it. -/
theorem clipboard_snapshot_invariant_witness :
    (save_clipboard kmInit "A").original_clipboard = some "A" ∧
    restore_clipboard
        ({ kmInit with original_clipboard := some "B" } : KeyboardManager) =
      ({ kmInit with original_clipboard := none }, [Effect.clipboardSet "B"]) := by
  refine ⟨(clipboard_snapshot_invariant kmInit "A" "B").1 rfl, ?_⟩
  exact (clipboard_snapshot_invariant
    ({ kmInit with original_clipboard := some "B" }) "A" "B").2.2.2.1 "B" rfl

theorem visibleAfter_cons (n : Nat) (e : Effect) (l : List Effect) :
    visibleAfter n (e :: l) = visibleAfter (applyEffect n e) l := rfl

theorem visibleAfter_epilogue (keep : Bool) (km : KeyboardManager)
    (t : String) (n : Nat) :
    visibleAfter n (type_text_clipboard_epilogue keep km t).2 = n := by
  cases keep <;> cases hoc : km.original_clipboard <;>
    simp [type_text_clipboard_epilogue, restore_clipboard, hoc,
      visibleAfter, applyEffect]

/-- C6: type_text routes a present error to show_error (injecting no final
text), an empty result with no error while PROCESSING or TRANSLATING to
show_warning with the recording-too-short message (injecting nothing), and
a non-empty result to final injection: the prior transient span is erased
first (a prefix of exactly temp_text_length backspaces) and the final text
is injected, leaving exactly its length visible. -/
theorem type_text_routes (term keep : Bool) (km : KeyboardManager)
    (text err : Option String) :
    (pyTruthy err = true →
       type_text term keep km text err = show_error term km (pyStr err)) ∧
    (pyTruthy err = false → pyTruthy text = false →
       (km.state = InputState.PROCESSING ∨
        km.state = InputState.TRANSLATING) →
       type_text term keep km text err = show_warning term km tooShortMsg) ∧
    (pyTruthy err = false → ∀ t, text = some t → t.length ≠ 0 →
       (∃ rest, (type_text term keep km text err).2 =
          List.replicate km.temp_text_length Effect.backspace ++ rest) ∧
       (if term then
          Effect.typeChars t ∈ (type_text term keep km text err).2
        else
          Effect.pasteChord (t ++ " ✅") ∈
            (type_text term keep km text err).2) ∧
       visibleAfter km.temp_text_length (type_text term keep km text err).2
         = t.length) := by
  refine ⟨?_, ?_, ?_⟩
  · intro h
    simp [type_text, h]
  · intro h1 h2 h3
    simp [type_text, h1, h2, h3]
  · intro h1 t ht hlen
    subst ht
    have hft : ¬ (pyTruthy (some t) = false) := by
      simp [pyTruthy]
      omega
    cases term
    · have hsfx : (" ✅" : String).length = 2 := by decide
      have hlen2 : (t ++ " ✅").length = t.length + 2 := by
        rw [String.length_append, hsfx]
      have hne : ¬ ((t ++ " ✅").length = 0) := by omega
      have heff : (type_text false keep km (some t) err).2 =
          List.replicate km.temp_text_length Effect.backspace ++
          (Effect.clipboardSet (t ++ " ✅") ::
           Effect.pasteChord (t ++ " ✅") ::
           Effect.backspace :: Effect.backspace ::
           (type_text_clipboard_epilogue keep
             ({ km with temp_text_length := 0 }) t).2) := by
        simp [type_text, h1, hft, pyStr, delete_previous_text,
          type_temp_text_clipboard, hne, hsfx, hlen, setState_IDLE_effects]
      refine ⟨⟨_, heff⟩, ?_, ?_⟩
      · simp [heff]
      · rw [heff, visibleAfter_append, visibleAfter_replicate_backspace,
          Nat.sub_self, visibleAfter_cons, visibleAfter_cons,
          visibleAfter_cons, visibleAfter_cons, visibleAfter_epilogue]
        simp [applyEffect, hlen2]
    · have heff : (type_text true keep km (some t) err).2 =
          List.replicate km.temp_text_length Effect.backspace ++
          (Effect.typeChars t ::
           (type_text_clipboard_epilogue keep
             ({ km with temp_text_length := 0 }) t).2) := by
        simp [type_text, h1, hft, pyStr, delete_previous_text,
          type_text_character_by_character_final, setState_IDLE_effects]
      refine ⟨⟨_, heff⟩, ?_, ?_⟩
      · simp [heff]
      · rw [heff, visibleAfter_append, visibleAfter_replicate_backspace,
          Nat.sub_self, visibleAfter_cons, visibleAfter_epilogue]
        simp [applyEffect]

/-- Witness for C6: one concrete call per route. -/
theorem type_text_routes_witness :
    type_text false true
        ({ kmInit with state := .PROCESSING } : KeyboardManager)
        none (some "boom") =
      show_error false ({ kmInit with state := .PROCESSING }) "boom" ∧
    type_text false true
        ({ kmInit with state := .PROCESSING } : KeyboardManager)
        (some "") none =
      show_warning false ({ kmInit with state := .PROCESSING }) tooShortMsg ∧
    Effect.pasteChord ("hi" ++ " ✅") ∈
      (type_text false true
        ({ kmInit with state := .PROCESSING } : KeyboardManager)
        (some "hi") none).2 ∧
    visibleAfter 0
      (type_text false true
        ({ kmInit with state := .PROCESSING } : KeyboardManager)
        (some "hi") none).2 = String.length "hi" := by
  have h1 := (type_text_routes false true
    ({ kmInit with state := .PROCESSING }) none (some "boom")).1 (by decide)
  have h2 := (type_text_routes false true
    ({ kmInit with state := .PROCESSING }) (some "") none).2.1
    (by decide) (by decide) (Or.inl rfl)
  have h3 := (type_text_routes false true
    ({ kmInit with state := .PROCESSING }) (some "hi") none).2.2
    (by decide) "hi" rfl (by decide)
  exact ⟨h1, h2, h3.2.1, h3.2.2⟩

/-- C7: process_audio always yields a pair of which exactly one side is
meaningful; a completed call yields the (optionally translated)
transcription with no error; a missed deadline raises TimeoutError inside
the decorator, which process_audio converts to the timeout-error pair. -/
theorem process_audio_result_exclusive (finishes : Bool)
    (body : Except PyExc AsrResponse) (mode : String)
    (translate : String → String) :
    ((∃ t, process_audio finishes body mode translate = (some t, none)) ∨
     (∃ e, process_audio finishes body mode translate = (none, some e))) ∧
    (∀ resp, finishes = true → body = Except.ok resp →
       process_audio finishes body mode translate =
         (some (if mode = "translations"
                then translate (extract_transcription resp)
                else extract_transcription resp), none)) ∧
    (finishes = false →
       process_audio finishes body mode translate =
         (none, some ("❌ API 请求超时 ("
           ++ toString ASR_DEFAULT_TIMEOUT ++ "秒)"))) ∧
    (finishes = false →
       timeout_decorator_run 10 finishes body =
         Except.error (PyExc.timeoutError
           ("操作超时 (" ++ toString 10 ++ "秒)"))) := by
  refine ⟨?_, ?_, ?_, ?_⟩
  · cases hf : finishes
    · exact Or.inr ⟨"❌ API 请求超时 (" ++ toString ASR_DEFAULT_TIMEOUT
        ++ "秒)", by simp [process_audio, timeout_decorator_run]⟩
    · cases body with
      | ok resp =>
        refine Or.inl ⟨if mode = "translations"
          then translate (extract_transcription resp)
          else extract_transcription resp, ?_⟩
        by_cases hm : mode = "translations" <;>
          simp [process_audio, timeout_decorator_run, hm]
      | error e =>
        cases e with
        | timeoutError msg =>
          exact Or.inr ⟨"❌ API 请求超时 (" ++ toString ASR_DEFAULT_TIMEOUT
            ++ "秒)", by simp [process_audio, timeout_decorator_run]⟩
        | otherError msg =>
          exact Or.inr ⟨"❌ " ++ msg,
            by simp [process_audio, timeout_decorator_run]⟩
  · intro resp hf hb
    subst hf
    subst hb
    by_cases hm : mode = "translations" <;>
      simp [process_audio, timeout_decorator_run, hm]
  · intro hf
    subst hf
    simp [process_audio, timeout_decorator_run]
  · intro hf
    subst hf
    simp [timeout_decorator_run]

/-- Witness for C7: a deadline miss on a concrete body. -/
theorem process_audio_result_exclusive_witness :
    process_audio false (Except.ok (AsrResponse.text "你好"))
        "transcriptions" id =
      (none, some ("❌ API 请求超时 (" ++ toString ASR_DEFAULT_TIMEOUT
        ++ "秒)")) ∧
    process_audio true (Except.ok (AsrResponse.text "你好"))
        "transcriptions" id =
      (some (if "transcriptions" = "translations"
             then id (extract_transcription (AsrResponse.text "你好"))
             else extract_transcription (AsrResponse.text "你好")), none) := by
  have h1 := (process_audio_result_exclusive false
    (Except.ok (AsrResponse.text "你好")) "transcriptions" id).2.2.1 rfl
  have h2 := (process_audio_result_exclusive true
    (Except.ok (AsrResponse.text "你好")) "transcriptions" id).2.1
    (AsrResponse.text "你好") rfl rfl
  exact ⟨h1, h2⟩

theorem setState_state_eq (term : Bool) (km : KeyboardManager)
    (new : InputState) (h : ¬ (new = km.state)) :
    (setState term km new).1.state = new := by
  cases new <;>
    · simp only [setState, if_neg h, type_temp_text,
        type_text_character_by_character, type_temp_text_clipboard,
        delete_previous_text]
      repeat' split
      all_goals rfl

/-- C8: every entry into WARNING (resp. ERROR) with a non-empty message
injects the formatted message as transient text and schedules the
2-second clear timer, whose body reverts the state to IDLE. -/
theorem warning_error_entry_inject_and_revert (term : Bool)
    (km : KeyboardManager) (m : String) (hm : m.length ≠ 0) :
    (km.state ≠ InputState.WARNING →
       (show_warning term km m).1.state = InputState.WARNING ∧
       (if term then Effect.typeChars ("⚠️ " ++ m)
        else Effect.pasteChord ("⚠️ " ++ m)) ∈ (show_warning term km m).2 ∧
       Effect.scheduleClear 2 ∈ (show_warning term km m).2) ∧
    (km.state ≠ InputState.ERROR →
       (show_error term km m).1.state = InputState.ERROR ∧
       (if term then Effect.typeChars m else Effect.pasteChord m) ∈
         (show_error term km m).2 ∧
       Effect.scheduleClear 2 ∈ (show_error term km m).2) ∧
    (∀ km2 : KeyboardManager,
       (clear_message term km2).1.state = InputState.IDLE) := by
  refine ⟨?_, ?_, fun km2 => setState_IDLE_state term km2⟩
  · intro hne
    have h := setState_WARNING term ({ km with warning_message := some m })
      hne
    rw [show_warning, h]
    refine ⟨rfl, ?_, ?_⟩ <;> cases term <;> simp [pyStr]
  · intro hne
    have h := setState_ERROR term ({ km with error_message := some m })
      hne hm
    rw [show_error, h]
    refine ⟨rfl, ?_, ?_⟩ <;> cases term <;> simp [pyStr]

/-- Witness for C8 from the idle manager. -/
theorem warning_error_entry_inject_and_revert_witness :
    (show_warning false kmInit "oops").1.state = InputState.WARNING ∧
    Effect.scheduleClear 2 ∈ (show_warning false kmInit "oops").2 ∧
    (show_error false kmInit "oops").1.state = InputState.ERROR ∧
    Effect.scheduleClear 2 ∈ (show_error false kmInit "oops").2 ∧
    (clear_message false kmInit).1.state = InputState.IDLE := by
  obtain ⟨hw, he, hc⟩ := warning_error_entry_inject_and_revert false kmInit
    "oops" (by decide)
  obtain ⟨hw1, _, hw3⟩ := hw (by decide)
  obtain ⟨he1, _, he3⟩ := he (by decide)
  exact ⟨hw1, hw3, he1, he3, hc kmInit⟩

/-- C9 counterexample: with an invalid transcribe-binding name the lookup
raises KeyError, yet the constructor completes with the attribute unset
(startup does not fail), unlike the behavior the spec words describe. -/
theorem invalid_binding_startup_counterexample :
    lookupKey (some "not_a_key") = Except.error "not_a_key" ∧
    init_key_bindings (some "not_a_key") (some "f7") = (none, some "f7") ∧
    init_key_bindings_claimed (some "not_a_key") (some "f7") =
      Except.error ("无效的转录按钮配置：" ++ "not_a_key") := by
  refine ⟨?_, ?_, ?_⟩ <;> rfl

/-- C9 amended: an invalid binding name is logged and leaves the attribute
unset; the constructor always completes, and a manager with an unset
transcribe binding silently ignores every subsequent key event (the
AttributeError is swallowed), so the process keeps running. -/
theorem invalid_binding_nonfatal (a b : Option String) (term : Bool)
    (km : KeyboardManager) (key clip : String) (t : Nat) :
    ((lookupKey a).isOk = false → (init_key_bindings a b).1 = none) ∧
    ((lookupKey b).isOk = false → (init_key_bindings a b).2 = none) ∧
    (km.transcriptions_button = none → on_press km key clip t = km) ∧
    (km.transcriptions_button = none → on_release term km key = (km, [])) := by
  refine ⟨?_, ?_, ?_, ?_⟩
  · intro h
    cases hl : lookupKey a with
    | ok k =>
      rw [hl] at h
      simp [Except.isOk, Except.toBool] at h
    | error e => simp [init_key_bindings, hl]
  · intro h
    cases hl : lookupKey b with
    | ok k =>
      rw [hl] at h
      simp [Except.isOk, Except.toBool] at h
    | error e => simp [init_key_bindings, hl]
  · intro h
    simp [on_press, h]
  · intro h
    simp [on_release, h]

/-- Witness for C9 amended: concrete invalid binding and a key press on a
manager with the attribute unset. -/
theorem invalid_binding_nonfatal_witness :
    (init_key_bindings (some "not_a_key") (some "f7")).1 = none ∧
    on_press ({ kmInit with transcriptions_button := none }
        : KeyboardManager) "f8" "clip" 0 =
      ({ kmInit with transcriptions_button := none }) ∧
    on_release false ({ kmInit with transcriptions_button := none }
        : KeyboardManager) "f8" =
      (({ kmInit with transcriptions_button := none }), []) := by
  obtain ⟨h1, _, h3, h4⟩ := invalid_binding_nonfatal (some "not_a_key")
    (some "f7") false ({ kmInit with transcriptions_button := none })
    "f8" "clip" 0
  exact ⟨h1 (by decide), h3 rfl, h4 rfl⟩

/-- C10: a show_error while already in ERROR (resp. show_warning while in
WARNING) is gated out by the enum-inequality check: no text is injected,
no clear timer is scheduled (the effect trace is empty), and the stored
message field is left set unconsumed; since a first call from any other
state leaves the state ERROR (resp. WARNING), of two back-to-back
messages only the first is displayed. -/
theorem duplicate_warning_error_dropped (term : Bool)
    (km : KeyboardManager) (m2 : String) :
    (km.state = InputState.ERROR →
       show_error term km m2 = ({ km with error_message := some m2 }, [])) ∧
    (km.state = InputState.WARNING →
       show_warning term km m2 =
         ({ km with warning_message := some m2 }, [])) ∧
    (km.state ≠ InputState.ERROR →
       (show_error term km m2).1.state = InputState.ERROR) ∧
    (km.state ≠ InputState.WARNING →
       (show_warning term km m2).1.state = InputState.WARNING) := by
  refine ⟨?_, ?_, ?_, ?_⟩
  · intro h
    simp [show_error, setState, h]
  · intro h
    simp [show_warning, setState, h]
  · intro h
    exact setState_state_eq term ({ km with error_message := some m2 })
      .ERROR (fun e => h e.symm)
  · intro h
    exact setState_state_eq term ({ km with warning_message := some m2 })
      .WARNING (fun e => h e.symm)

/-- Witness for C10: a second error and a second warning while the matching
state is already active. -/
theorem duplicate_warning_error_dropped_witness :
    show_error false ({ kmInit with state := .ERROR } : KeyboardManager)
        "second" =
      ({ kmInit with state := .ERROR, error_message := some "second" }, []) ∧
    show_warning false ({ kmInit with state := .WARNING } : KeyboardManager)
        "second" =
      ({ kmInit with state := .WARNING, warning_message := some "second" },
       []) ∧
    (show_error false kmInit "first").1.state = InputState.ERROR := by
  refine ⟨?_, ?_, ?_⟩
  · exact (duplicate_warning_error_dropped false
      ({ kmInit with state := .ERROR }) "second").1 rfl
  · exact (duplicate_warning_error_dropped false
      ({ kmInit with state := .WARNING }) "second").2.1 rfl
  · exact (duplicate_warning_error_dropped false kmInit "first").2.2.1
      (by decide)
